import Mathlib

/-
Verification development for the oralVI server: a shallow embedding of the
submission lifecycle (routes/patient.js and the admin route file), the
credential verifier and the role gate (middleware/auth.js), and the
Submission and User record schemas (models/Submission.js, models/User.js).
External collaborators (token verification, the record store lookup, the
artifact store, the email validator) are modelled as oracle parameters; the
handlers themselves are translated line by line from the source.
-/

namespace OralVis

/-- Submission status enumeration, mirroring the Mongoose schema in
models/Submission.js: enum of uploaded, annotated, reported. -/
inductive Status where
  | uploaded
  | annotated
  | reported
deriving DecidableEq, Repr

/-- The Submission record of models/Submission.js. The patient owner
reference is modelled as a numeric identifier; optional schema fields are
Option valued; status defaults to uploaded at creation. -/
structure Submission where
  patient : Nat
  name : String
  patientId : String
  email : String
  note : Option String
  imageUrl : String
  annotationJson : Option String
  annotatedImageUrl : Option String
  reportUrl : Option String
  status : Status
deriving DecidableEq, Repr

/-- The User record of models/User.js, restricted to the fields the
middleware reads: identifier and role. -/
structure User where
  id : Nat
  role : String
deriving DecidableEq, Repr

/-- HTTP-level outcome of a handler, as the status codes the routes emit. -/
inductive Http where
  | ok200
  | created201
  | bad400
  | unauth401
  | forbidden403
  | notFound404
  | err500
deriving DecidableEq, Repr

/-- JavaScript truthiness of an optional string request-body field: an
absent field and the empty string are both falsy, as in the notEmpty
validator checks and the bare if (!x) checks of the handlers. -/
def jsTruthy : Option String → Bool
  | none => false
  | some s => s != ""

/-- A freshly constructed Submission document, as new Submission in the
upload handler: annotation fields and reportUrl unset, status defaulting
to uploaded per the schema. -/
def mkSubmission (owner : Nat) (name patientId email : String)
    (note : Option String) (imageUrl : String) : Submission :=
  { patient := owner
    name := name
    patientId := patientId
    email := email
    note := note
    imageUrl := imageUrl
    annotationJson := none
    annotatedImageUrl := none
    reportUrl := none
    status := Status.uploaded }

/-- Submission.findOne on filter (id, patient = requester), from the
patient-facing handlers: the stored document is returned only when its
owner equals the requester. -/
def findOwned (u : Nat) (db : Option Submission) : Option Submission :=
  match db with
  | none => none
  | some s => if s.patient = u then some s else none

/-- POST /upload (routes/patient.js lines 29 to 86): express-validator
checks name and patientId notEmpty and email isEmail, then requires the
image file, then uploads to the artifact store (a throw is caught as 500),
then persists a fresh Submission. The email validator and the store are
oracle parameters. -/
def uploadSubmission (isEmail : String → Bool) (owner : Nat)
    (name patientId email note : Option String)
    (filePresent uploadOk : Bool) (secureUrl : String) :
    Http × Option Submission :=
  if !(jsTruthy name && jsTruthy patientId &&
        (match email with | some e => isEmail e | none => false)) then
    (Http.bad400, none)
  else if !filePresent then
    (Http.bad400, none)
  else if !uploadOk then
    (Http.err500, none)
  else
    (Http.created201,
      some (mkSubmission owner (name.getD "") (patientId.getD "")
        (email.getD "") note secureUrl))

/-- GET /submissions/:id (routes/patient.js lines 99 to 114): findOne
scoped to the requesting patient, 404 when absent or owned by another
patient, otherwise the document is returned unmodified. -/
def getSubmission (u : Nat) (db : Option Submission) :
    Http × Option Submission :=
  match findOwned u db with
  | none => (Http.notFound404, none)
  | some s => (Http.ok200, some s)

/-- POST /save-annotated/:id (routes/patient.js lines 116 to 154): the
annotatedImageData body field is required (400 when falsy), then an
owner-scoped findOne (404 when absent or not owned), then the artifact
upload (a throw is caught as 500 leaving the document untouched), then
annotatedImageUrl is set and status is set to annotated. No precondition
on the current status is checked. -/
def saveAnnotated (u : Nat) (annotatedImageData : Option String)
    (uploadOk : Bool) (secureUrl : String) (db : Option Submission) :
    Http × Option Submission :=
  if !(jsTruthy annotatedImageData) then
    (Http.bad400, db)
  else
    match findOwned u db with
    | none => (Http.notFound404, db)
    | some s =>
      if !uploadOk then
        (Http.err500, db)
      else
        (Http.ok200,
          some { s with annotatedImageUrl := some secureUrl
                        status := Status.annotated })

/-- POST /submissions/:id/annotate in the admin route file (lines 39 to
73): annotationJson and annotatedImage are required notEmpty (400),
findById is unscoped (404 when absent), the artifact upload throw is
caught as 500, then annotationJson and annotatedImageUrl are stored and
status is set to annotated. No precondition on the current status. -/
def adminAnnotate (annotationJson annotatedImage : Option String)
    (uploadOk : Bool) (secureUrl : String) (db : Option Submission) :
    Http × Option Submission :=
  if !(jsTruthy annotationJson && jsTruthy annotatedImage) then
    (Http.bad400, db)
  else
    match db with
    | none => (Http.notFound404, db)
    | some s =>
      if !uploadOk then
        (Http.err500, db)
      else
        (Http.ok200,
          some { s with annotationJson := annotationJson
                        annotatedImageUrl := some secureUrl
                        status := Status.annotated })

/-- POST /generate-report/:id (routes/patient.js lines 157 to 213): an
owner-scoped findOne (404), then the report document is assembled and
handed to the artifact store; on store failure the callback answers 500
and the document is untouched; on success reportUrl is recorded and
status is set to reported. No guard on status or on annotatedImageUrl. -/
def generateReport (u : Nat) (uploadOk : Bool) (secureUrl : String)
    (db : Option Submission) : Http × Option Submission :=
  match findOwned u db with
  | none => (Http.notFound404, db)
  | some s =>
    if !uploadOk then
      (Http.err500, db)
    else
      (Http.ok200,
        some { s with reportUrl := some secureUrl
                      status := Status.reported })

/-- POST /submissions/:id/generate-pdf in the admin route file (lines 76
to 162): findById unscoped (404), then a falsy annotatedImageUrl is
rejected with 400 before anything else, then the annotated image is
fetched (a throw is caught as 500) and the assembled document is uploaded
(failure answers 500, document untouched); on success reportUrl is
recorded and status is set to reported. -/
def generatePdf (fetchOk uploadOk : Bool) (secureUrl : String)
    (db : Option Submission) : Http × Option Submission :=
  match db with
  | none => (Http.notFound404, db)
  | some s =>
    if !(jsTruthy s.annotatedImageUrl) then
      (Http.bad400, db)
    else if !fetchOk then
      (Http.err500, db)
    else if !uploadOk then
      (Http.err500, db)
    else
      (Http.ok200,
        some { s with reportUrl := some secureUrl
                      status := Status.reported })

/-- The mutating operations on an existing submission, with their request
inputs and the artifact-store outcome for the call. -/
inductive Op where
  | save (u : Nat) (annotatedImageData : Option String) (ok : Bool) (url : String)
  | annotate (aj ai : Option String) (ok : Bool) (url : String)
  | report (u : Nat) (ok : Bool) (url : String)
  | pdf (fetchOk ok : Bool) (url : String)

/-- Dispatch of one operation against the stored document. -/
def applyOp : Op → Option Submission → Http × Option Submission
  | Op.save u d ok url, db => saveAnnotated u d ok url db
  | Op.annotate aj ai ok url, db => adminAnnotate aj ai ok url db
  | Op.report u ok url, db => generateReport u ok url db
  | Op.pdf f ok url, db => generatePdf f ok url db

/-- Running a sequence of operations against the stored document. -/
def run (ops : List Op) (db : Option Submission) : Option Submission :=
  ops.foldl (fun d op => (applyOp op d).2) db

/-- Ordering of the lifecycle states along the intended forward chain. -/
def Status.rank : Status → Nat
  | Status.uploaded => 0
  | Status.annotated => 1
  | Status.reported => 2

/-- The cookie token as middleware/auth.js reads it: req.cookies token
with the or-null fallback, so an absent cookie jar, an absent cookie and
an empty cookie value all yield no token. -/
def cookieOrNull (cookieToken : Option String) : Option String :=
  match cookieToken with
  | none => none
  | some c => if c = "" then none else some c

/-- The Authorization header token as middleware/auth.js extracts it: the
header must start with the Bearer prefix followed by a space, the token is
the second space-separated word, and an empty result is treated as no
token by the following falsiness check. -/
def headerToken (authHeader : Option String) : Option String :=
  match authHeader with
  | none => none
  | some h =>
    if h.startsWith "Bearer " then
      match (h.splitOn " ").get? 1 with
      | none => none
      | some w => if w = "" then none else some w
    else none

/-- Token selection in authenticateToken: the cookie token is taken first
and the Authorization header is consulted only when the cookie token is
falsy. -/
def extractToken (cookieToken authHeader : Option String) : Option String :=
  match cookieOrNull cookieToken with
  | some c => some c
  | none => headerToken authHeader

/-- Outcome of the credential verifier: one of the three 401 refusals of
middleware/auth.js, or success carrying the resolved identity that the
middleware attaches to the request. -/
inductive AuthResult where
  | noToken
  | badToken
  | userNotFound
  | success (u : User)
deriving DecidableEq, Repr

/-- Whether an authentication outcome is one of the 401 refusals. -/
def AuthResult.is401 : AuthResult → Bool
  | AuthResult.success _ => false
  | _ => true

/-- authenticateToken (middleware/auth.js lines 4 to 37): extract the
token (401 when none), verify it against the shared secret where invalid
and expired tokens both throw into one catch (401), look up the decoded
subject identifier (401 when no such User), otherwise attach the resolved
identity. Verification and the user lookup are oracle parameters. -/
def authenticateToken (verify : String → Option Nat)
    (findUser : Nat → Option User)
    (cookieToken authHeader : Option String) : AuthResult :=
  match extractToken cookieToken authHeader with
  | none => AuthResult.noToken
  | some t =>
    match verify t with
    | none => AuthResult.badToken
    | some i =>
      match findUser i with
      | none => AuthResult.userNotFound
      | some u => AuthResult.success u

/-- Outcome of the role gate middleware. -/
inductive GateResult where
  | unauth401
  | forbidden403
  | pass
deriving DecidableEq, Repr

/-- authorizeRoles (middleware/auth.js lines 39 to 51): 401 when no
identity was attached by the verifier, 403 when the attached role is not
in the permitted list, otherwise the request passes through unchanged. -/
def authorizeRoles (roles : List String) (user : Option User) : GateResult :=
  match user with
  | none => GateResult.unauth401
  | some u =>
    if roles.contains u.role then GateResult.pass
    else GateResult.forbidden403

/-- A concrete freshly uploaded submission owned by patient 1, used by the
counterexamples and witnesses. -/
def sub0 : Submission :=
  mkSubmission 1 "Jane" "P-1" "jane@x.com" none "img-1"

/-- The stored document after admin annotation and admin report generation
starting from sub0: a reachable reported state with reportUrl set. -/
def reportedDb : Option Submission :=
  run [Op.annotate (some "ann-json") (some "img-data") true "ann-1",
       Op.pdf true true "rep-1"] (some sub0)

/-- The result of the owner calling save-annotated on the reported
document: the handler has no status guard, so status regresses. -/
def regressedDb : Option Submission :=
  (applyOp (Op.save 1 (some "new-img-data") true "ann-2") reportedDb).2

/-- A concrete annotated submission, sub0 after an annotation pass. -/
def subAnn : Submission :=
  { sub0 with annotatedImageUrl := some "ann-1", status := Status.annotated }

/-- The reported document that admin report generation produces from
subAnn with artifact url r-9. -/
def subRep : Submission :=
  { subAnn with reportUrl := some "r-9", status := Status.reported }

/-- Every mutating operation on a stored document either leaves it
unchanged, or sets status to annotated while leaving reportUrl as it was,
or sets status to reported together with a set reportUrl. This is the
complete shape of the four update paths of the handlers. -/
theorem applyOp_shape (op : Op) (s s' : Submission)
    (h : (applyOp op (some s)).2 = some s') :
    s' = s ∨
    (s'.status = Status.annotated ∧ s'.reportUrl = s.reportUrl) ∨
    (s'.status = Status.reported ∧ s'.reportUrl.isSome = true) := by
  cases op <;>
    (simp only [applyOp, saveAnnotated, adminAnnotate, generateReport,
       generatePdf, findOwned] at h;
     repeat' split at h) <;>
    simp only [Option.some.injEq] at h <;>
    (subst h; simp_all)

/-- When no document matches the identifier, every operation answers
without creating one. -/
theorem applyOp_none (op : Op) : (applyOp op none).2 = none := by
  cases op <;>
    simp only [applyOp, saveAnnotated, adminAnnotate, generateReport,
      generatePdf, findOwned] <;>
    (repeat' split) <;> rfl

/-- The forward invariant of reportUrl: along any run of operations from a
document satisfying it, a reported document always carries a set
reportUrl. -/
theorem run_reportInv (ops : List Op) (db : Option Submission)
    (hdb : ∀ s, db = some s → s.status = Status.reported →
      s.reportUrl.isSome = true) :
    ∀ s, run ops db = some s → s.status = Status.reported →
      s.reportUrl.isSome = true := by
  induction ops generalizing db with
  | nil =>
    intro s hs
    exact hdb s (by simpa [run] using hs)
  | cons op rest ih =>
    intro s hs
    have hstep : ∀ t, (applyOp op db).2 = some t →
        t.status = Status.reported → t.reportUrl.isSome = true := by
      intro t ht
      rcases db with _ | s0
      · rw [applyOp_none] at ht
        exact Option.noConfusion ht
      · rcases applyOp_shape op s0 t ht with h1 | h2 | h3
        · rw [h1]; exact hdb s0 rfl
        · intro hrep; rw [h2.1] at hrep; exact Status.noConfusion hrep
        · intro _; exact h3.2
    exact ih ((applyOp op db).2) hstep s (by simpa [run, List.foldl] using hs)

/-- The patient report-generation handler either leaves the document
unchanged or marks it reported. -/
theorem generateReport_shape (u : Nat) (ok : Bool) (url : String)
    (s s' : Submission)
    (h : (generateReport u ok url (some s)).2 = some s') :
    s' = s ∨ s'.status = Status.reported := by
  simp only [generateReport, findOwned] at h
  repeat' split at h
  all_goals
    first
      | exact Option.noConfusion h
      | (injection h with h; subst h; simp_all)

/-- The admin report-generation handler either leaves the document
unchanged or marks it reported. -/
theorem generatePdf_shape (f ok : Bool) (url : String) (s s' : Submission)
    (h : (generatePdf f ok url (some s)).2 = some s') :
    s' = s ∨ s'.status = Status.reported := by
  simp only [generatePdf] at h
  repeat' split at h
  all_goals
    first
      | exact Option.noConfusion h
      | (injection h with h; subst h; simp_all)

/-- Claim C1, counterexample: the claim says status never regresses along
the transition table, in particular never from reported back to annotated.
Starting from a freshly uploaded submission, admin annotation followed by
admin report generation reaches status reported, and the owner then calling
save-annotated (which checks no status precondition) moves the document
back to annotated. -/
theorem C1_counterexample :
    reportedDb.map Submission.status = some Status.reported ∧
    regressedDb.map Submission.status = some Status.annotated := by
  exact ⟨by decide, by decide⟩

/-- Claim C1, amended: the status field takes only the three values of the
Status enumeration (by construction of the schema type); creation always
yields status uploaded; no operation ever moves a document back to
uploaded; and the two report-generation operations never lower the status.
The two annotation operations, however, may move a reported document back
to annotated, as the counterexample shows. -/
theorem C1_amended :
    (∀ (isEmail : String → Bool) (o : Nat) (n p e nt : Option String)
        (fp ok : Bool) (url : String) (s : Submission),
        (uploadSubmission isEmail o n p e nt fp ok url).2 = some s →
        s.status = Status.uploaded) ∧
    (∀ (op : Op) (s s' : Submission),
        (applyOp op (some s)).2 = some s' →
        s'.status = Status.uploaded → s.status = Status.uploaded) ∧
    (∀ (u : Nat) (ok : Bool) (url : String) (s s' : Submission),
        (applyOp (Op.report u ok url) (some s)).2 = some s' →
        Status.rank s.status ≤ Status.rank s'.status) ∧
    (∀ (f ok : Bool) (url : String) (s s' : Submission),
        (applyOp (Op.pdf f ok url) (some s)).2 = some s' →
        Status.rank s.status ≤ Status.rank s'.status) := by
  refine ⟨?_, ?_, ?_, ?_⟩
  · intro isEmail o n p e nt fp ok url s h
    simp only [uploadSubmission] at h
    repeat' split at h
    all_goals
      first
        | exact Option.noConfusion h
        | (injection h with h; subst h; rfl)
  · intro op s s' h hs
    rcases applyOp_shape op s s' h with h1 | h2 | h3
    · rw [← h1]; exact hs
    · rw [h2.1] at hs; exact Status.noConfusion hs
    · rw [h3.1] at hs; exact Status.noConfusion hs
  · intro u ok url s s' h
    rcases generateReport_shape u ok url s s' h with h1 | h2
    · rw [h1]
    · rw [h2]; cases s.status <;> decide
  · intro f ok url s s' h
    rcases generatePdf_shape f ok url s s' h with h1 | h2
    · rw [h1]
    · rw [h2]; cases s.status <;> decide

/-- Witness for the C1 amended theorem at a concrete input: report
generation by the owner on the fresh submission does not lower the
status. -/
theorem C1_amended_witness :
    ((applyOp (Op.report 1 true "r-w1") (some sub0)).2 =
      some { sub0 with reportUrl := some "r-w1", status := Status.reported }) ∧
    Status.rank sub0.status ≤
      Status.rank (Submission.status
        { sub0 with reportUrl := some "r-w1", status := Status.reported }) :=
  ⟨by decide,
   C1_amended.2.2.1 1 true "r-w1" sub0
     { sub0 with reportUrl := some "r-w1", status := Status.reported }
     (by decide)⟩

/-- Claim C2, counterexample: the claim says reportUrl is non-null iff
status is reported in every reachable state. The reachable state obtained
by annotating, generating the report, and then calling save-annotated
again has status annotated while reportUrl is still set. -/
theorem C2_counterexample :
    regressedDb.map (fun s => (s.status, s.reportUrl)) =
      some (Status.annotated, some "rep-1") := by
  decide

/-- Claim C2, amended: no operation ever clears reportUrl; every operation
that changes reportUrl sets status to reported in the same update and
leaves reportUrl set; and in every state reachable from a fresh upload,
status reported implies reportUrl is set. The converse direction of the
claimed iff fails, because the annotation operations can move status off
reported while reportUrl remains set. -/
theorem C2_amended :
    (∀ (op : Op) (s s' : Submission),
        (applyOp op (some s)).2 = some s' →
        (s.reportUrl.isSome = true → s'.reportUrl.isSome = true) ∧
        (s'.reportUrl ≠ s.reportUrl →
          s'.status = Status.reported ∧ s'.reportUrl.isSome = true)) ∧
    (∀ (ops : List Op) (o : Nat) (n p e i : String) (nt : Option String)
        (s : Submission),
        run ops (some (mkSubmission o n p e nt i)) = some s →
        s.status = Status.reported → s.reportUrl.isSome = true) := by
  constructor
  · intro op s s' h
    rcases applyOp_shape op s s' h with h1 | h2 | h3
    · constructor
      · intro hs; rw [h1]; exact hs
      · intro hne; exact absurd (by rw [h1]) hne
    · constructor
      · intro hs; rw [h2.2]; exact hs
      · intro hne; exact absurd h2.2 hne
    · exact ⟨fun _ => h3.2, fun _ => h3⟩
  · intro ops o n p e i nt s hs
    refine run_reportInv ops (some (mkSubmission o n p e nt i)) ?_ s hs
    intro t ht hrep
    injection ht with ht
    rw [← ht] at hrep
    exact Status.noConfusion hrep

/-- Witness for the C2 amended theorem at a concrete input: admin report
generation on the annotated document changes reportUrl and accordingly
sets status to reported with reportUrl set. -/
theorem C2_amended_witness :
    ((applyOp (Op.pdf true true "r-9") (some subAnn)).2 = some subRep) ∧
    (subRep.reportUrl ≠ subAnn.reportUrl →
      subRep.status = Status.reported ∧ subRep.reportUrl.isSome = true) :=
  ⟨by decide,
   fun hne =>
     (C2_amended.1 (Op.pdf true true "r-9") subAnn subRep (by decide)).2 hne⟩

/-- Claim C3, counterexample: the claim says both report variants are
applicable only to a submission whose status is annotated. The patient
variant succeeds on the fresh submission, whose status is uploaded, and
transitions it straight to reported. -/
theorem C3_counterexample :
    sub0.status = Status.uploaded ∧
    applyOp (Op.report 1 true "rep-x") (some sub0) =
      (Http.ok200,
        some { sub0 with reportUrl := some "rep-x",
                         status := Status.reported }) := by
  decide

/-- Claim C3, amended: neither report variant checks the status field at
all; each transitions any submission it accepts to reported. The admin
variant requires a truthy annotatedImageUrl and answers 400 otherwise;
the patient variant has no guard beyond ownership. -/
theorem C3_amended :
    (∀ (s : Submission) (u : Nat) (url : String), s.patient = u →
        applyOp (Op.report u true url) (some s) =
          (Http.ok200,
            some { s with reportUrl := some url,
                          status := Status.reported })) ∧
    (∀ (s : Submission) (url : String),
        jsTruthy s.annotatedImageUrl = true →
        applyOp (Op.pdf true true url) (some s) =
          (Http.ok200,
            some { s with reportUrl := some url,
                          status := Status.reported })) ∧
    (∀ (s : Submission) (f ok : Bool) (url : String),
        jsTruthy s.annotatedImageUrl = false →
        applyOp (Op.pdf f ok url) (some s) = (Http.bad400, some s)) := by
  refine ⟨?_, ?_, ?_⟩
  · intro s u url hp
    simp [applyOp, generateReport, findOwned, hp]
  · intro s url ha
    simp [applyOp, generatePdf, ha]
  · intro s f ok url ha
    simp [applyOp, generatePdf, ha]

/-- Witness for the C3 amended theorem at a concrete input: the owner
generating a report on the freshly uploaded submission. -/
theorem C3_amended_witness :
    sub0.patient = 1 ∧
    applyOp (Op.report 1 true "rep-x2") (some sub0) =
      (Http.ok200,
        some { sub0 with reportUrl := some "rep-x2",
                         status := Status.reported }) :=
  ⟨rfl, C3_amended.1 sub0 1 "rep-x2" rfl⟩

/-- Claim C4: the admin generate-pdf on an existing submission whose
annotatedImageUrl is null answers 400 and leaves the stored document
completely unchanged, whatever the artifact-store outcomes would have
been. -/
theorem C4_pdf_requires_annotated_image (s : Submission) (f ok : Bool)
    (url : String) (h : s.annotatedImageUrl = none) :
    applyOp (Op.pdf f ok url) (some s) = (Http.bad400, some s) := by
  simp [applyOp, generatePdf, h, jsTruthy]

/-- Witness for the C4 theorem: the fresh submission has no annotated
image, so admin generate-pdf answers 400 and changes nothing. -/
theorem C4_witness :
    sub0.annotatedImageUrl = none ∧
    applyOp (Op.pdf true true "r-4") (some sub0) = (Http.bad400, some sub0) :=
  ⟨rfl, C4_pdf_requires_annotated_image sub0 true true "r-4" rfl⟩

/-- Claim C5: patient-facing read and mutation scope every lookup by
owner. When the owner differs from the requester, get-by-id,
save-annotated (given a well-formed body) and generate-report all answer
404 and leave the stored document unchanged; and each of the three can
succeed only when the owner equals the requester. -/
theorem C5_ownership :
    (∀ (s : Submission) (u : Nat), s.patient ≠ u →
        getSubmission u (some s) = (Http.notFound404, none)) ∧
    (∀ (s : Submission) (u : Nat) (d : Option String) (ok : Bool)
        (url : String), s.patient ≠ u → jsTruthy d = true →
        applyOp (Op.save u d ok url) (some s) =
          (Http.notFound404, some s)) ∧
    (∀ (s : Submission) (u : Nat) (ok : Bool) (url : String),
        s.patient ≠ u →
        applyOp (Op.report u ok url) (some s) =
          (Http.notFound404, some s)) ∧
    (∀ (s : Submission) (u : Nat),
        (getSubmission u (some s)).1 = Http.ok200 → s.patient = u) ∧
    (∀ (s : Submission) (u : Nat) (d : Option String) (ok : Bool)
        (url : String),
        (applyOp (Op.save u d ok url) (some s)).1 = Http.ok200 →
        s.patient = u) ∧
    (∀ (s : Submission) (u : Nat) (ok : Bool) (url : String),
        (applyOp (Op.report u ok url) (some s)).1 = Http.ok200 →
        s.patient = u) := by
  refine ⟨?_, ?_, ?_, ?_, ?_, ?_⟩
  · intro s u hp
    simp [getSubmission, findOwned, hp]
  · intro s u d ok url hp hd
    simp [applyOp, saveAnnotated, findOwned, hp, hd]
  · intro s u ok url hp
    simp [applyOp, generateReport, findOwned, hp]
  · intro s u h
    by_cases hp : s.patient = u
    · exact hp
    · simp [getSubmission, findOwned, hp] at h
  · intro s u d ok url h
    by_cases hp : s.patient = u
    · exact hp
    · by_cases hd : jsTruthy d = true <;>
        simp [applyOp, saveAnnotated, findOwned, hp, hd] at h
  · intro s u ok url h
    by_cases hp : s.patient = u
    · exact hp
    · simp [applyOp, generateReport, findOwned, hp] at h

/-- Witness for the C5 theorem: patient 2 asking for the submission owned
by patient 1 receives 404. -/
theorem C5_witness :
    sub0.patient ≠ 2 ∧
    getSubmission 2 (some sub0) = (Http.notFound404, none) :=
  ⟨by decide, C5_ownership.1 sub0 2 (by decide)⟩

/-- Claim C6: when the artifact store fails while uploading the assembled
report, both report variants leave the stored document unchanged (in
particular reportUrl stays as it was and status does not become
reported) and surface a 500 to the caller. -/
theorem C6_store_failure :
    (∀ (s : Submission) (u : Nat) (url : String), s.patient = u →
        applyOp (Op.report u false url) (some s) = (Http.err500, some s)) ∧
    (∀ (s : Submission) (f : Bool) (url : String),
        jsTruthy s.annotatedImageUrl = true →
        applyOp (Op.pdf f false url) (some s) = (Http.err500, some s)) := by
  constructor
  · intro s u url hp
    simp [applyOp, generateReport, findOwned, hp]
  · intro s f url ha
    cases f <;> simp [applyOp, generatePdf, ha]

/-- Witness for the C6 theorem: a failing report upload for the owner of
the fresh submission answers 500 and changes nothing. -/
theorem C6_witness :
    sub0.patient = 1 ∧
    applyOp (Op.report 1 false "r-6") (some sub0) = (Http.err500, some sub0) :=
  ⟨rfl, C6_store_failure.1 sub0 1 "r-6" rfl⟩

/-- Claim C7: the credential verifier answers 401 in exactly the three
cases of no token, failed verification (invalid and expired conflated by
the single catch), and decoded subject resolving to no User; otherwise it
succeeds with exactly the resolved identity. When the cookie carries a
truthy token the Authorization header is ignored, so the cookie takes
precedence. -/
theorem C7_credential_verifier :
    (∀ (verify : String → Option Nat) (findUser : Nat → Option User)
        (cookie header : Option String),
        ((authenticateToken verify findUser cookie header).is401 = true ↔
          (extractToken cookie header = none ∨
           (∃ t, extractToken cookie header = some t ∧ verify t = none) ∨
           (∃ t i, extractToken cookie header = some t ∧
              verify t = some i ∧ findUser i = none)))) ∧
    (∀ (verify : String → Option Nat) (findUser : Nat → Option User)
        (cookie header : Option String) (u : User),
        (authenticateToken verify findUser cookie header =
            AuthResult.success u ↔
          (∃ t i, extractToken cookie header = some t ∧
             verify t = some i ∧ findUser i = some u))) ∧
    (∀ (verify : String → Option Nat) (findUser : Nat → Option User)
        (c : String) (header : Option String), c ≠ "" →
        authenticateToken verify findUser (some c) header =
          authenticateToken verify findUser (some c) none) := by
  refine ⟨?_, ?_, ?_⟩
  · intro verify findUser cookie header
    cases hT : extractToken cookie header with
    | none => simp [authenticateToken, hT, AuthResult.is401]
    | some t =>
      cases hV : verify t with
      | none => simp [authenticateToken, hT, hV, AuthResult.is401]
      | some i =>
        cases hU : findUser i with
        | none => simp [authenticateToken, hT, hV, hU, AuthResult.is401]
        | some u => simp [authenticateToken, hT, hV, hU, AuthResult.is401]
  · intro verify findUser cookie header u
    cases hT : extractToken cookie header with
    | none => simp [authenticateToken, hT]
    | some t =>
      cases hV : verify t with
      | none => simp [authenticateToken, hT, hV]
      | some i =>
        cases hU : findUser i with
        | none => simp [authenticateToken, hT, hV, hU]
        | some w => simp [authenticateToken, hT, hV, hU, eq_comm]
  · intro verify findUser c header hc
    have hE : extractToken (some c) header = extractToken (some c) none := by
      simp [extractToken, cookieOrNull, hc]
    simp [authenticateToken, hE]

/-- Witness for the C7 theorem: with a truthy cookie token the verifier
gives the same outcome whether or not a Bearer header is also present. -/
theorem C7_witness :
    ("tok-1" : String) ≠ "" ∧
    authenticateToken (fun _ => some 1)
        (fun _ => some { id := 1, role := "patient" })
        (some "tok-1") (some "Bearer other") =
      authenticateToken (fun _ => some 1)
        (fun _ => some { id := 1, role := "patient" })
        (some "tok-1") none :=
  ⟨by decide,
   C7_credential_verifier.2.2 (fun _ => some 1)
     (fun _ => some { id := 1, role := "patient" })
     "tok-1" (some "Bearer other") (by decide)⟩

/-- Claim C8: the role gate answers 401 when no identity is attached,
403 when the attached identity has a role outside the permitted list,
and passes otherwise; being a pure function of the permitted list and
the attached identity, it has no other effect. -/
theorem C8_role_gate :
    (∀ (roles : List String),
        authorizeRoles roles none = GateResult.unauth401) ∧
    (∀ (roles : List String) (u : User), roles.contains u.role = false →
        authorizeRoles roles (some u) = GateResult.forbidden403) ∧
    (∀ (roles : List String) (u : User), roles.contains u.role = true →
        authorizeRoles roles (some u) = GateResult.pass) := by
  refine ⟨fun roles => rfl, ?_, ?_⟩ <;>
    (intro roles u h; simp [authorizeRoles]; simpa using h)

/-- Witness for the C8 theorem: an admin identity against the patient-only
gate is refused with 403. -/
theorem C8_witness :
    (["patient"] : List String).contains "admin" = false ∧
    authorizeRoles ["patient"] (some { id := 7, role := "admin" }) =
      GateResult.forbidden403 :=
  ⟨by decide, C8_role_gate.2.1 ["patient"] { id := 7, role := "admin" }
    (by decide)⟩

/-- Claim C9: uploading a submission with name Jane Doe, patientId P-100,
email jane@x.com and empty note succeeds with 201, and the owner then
retrieving it by id gets 200 with identical name, patientId, email and
note values and status uploaded. The email validator is an oracle assumed
to accept the given address. -/
theorem C9_roundtrip (isEmail : String → Bool)
    (h : isEmail "jane@x.com" = true) :
    ((uploadSubmission isEmail 1 (some "Jane Doe") (some "P-100")
        (some "jane@x.com") (some "") true true "img-9").1 =
      Http.created201) ∧
    ((getSubmission 1 (uploadSubmission isEmail 1 (some "Jane Doe")
        (some "P-100") (some "jane@x.com") (some "") true true
        "img-9").2).1 = Http.ok200) ∧
    ((getSubmission 1 (uploadSubmission isEmail 1 (some "Jane Doe")
        (some "P-100") (some "jane@x.com") (some "") true true
        "img-9").2).2.map
          (fun s => (s.name, s.patientId, s.email, s.note, s.status)) =
      some ("Jane Doe", "P-100", "jane@x.com", some "", Status.uploaded)) := by
  have hu : uploadSubmission isEmail 1 (some "Jane Doe") (some "P-100")
      (some "jane@x.com") (some "") true true "img-9" =
      (Http.created201,
        some (mkSubmission 1 "Jane Doe" "P-100" "jane@x.com" (some "")
          "img-9")) := by
    simp [uploadSubmission, jsTruthy, h]
  refine ⟨by rw [hu], ?_, ?_⟩ <;>
    (rw [hu]; simp [getSubmission, findOwned, mkSubmission])

/-- Witness for the C9 theorem with the always-accepting email oracle. -/
theorem C9_witness :
    ((fun _ => true) : String → Bool) "jane@x.com" = true ∧
    ((uploadSubmission (fun _ => true) 1 (some "Jane Doe") (some "P-100")
        (some "jane@x.com") (some "") true true "img-9").1 =
      Http.created201) :=
  ⟨rfl, (C9_roundtrip (fun _ => true) rfl).1⟩

/-- Claim C10: the role gate constructed with zero permitted role names
refuses every attached identity with 403, since no role is a member of
the empty permitted list. -/
theorem C10_empty_roles_forbidden (u : User) :
    authorizeRoles [] (some u) = GateResult.forbidden403 := by
  simp [authorizeRoles]

end OralVis
